import Mathlib

/-!
Verification of the Webasto-Next-Modbus integration core.

This file gives a shallow embedding, in Lean 4, of the register catalog
(`const.py`), the read-plan builder, codec and retry/transport logic
(`hub.py`), and the virtual wallbox simulator (`simulator.py`), together
with theorems settling the frozen claims about them.

Modelling conventions:
* Python `int` register addresses are `ℤ`; word counts are `ℕ`; 16-bit
  register words are `ℕ` (the code keeps them in `0 ≤ w < 2 ^ 16`).
* Python `float` scales and numeric values are modelled as `ℚ`; `round`
  is Python's banker's rounding (`pyRound`), `int(...)` is truncation
  toward zero (`pyInt`).
* Text values are modelled at the byte level as `List ℕ`; the charset
  decode step (`bytes.decode(charset, errors="ignore")`) is the identity
  on the ASCII byte range, which is the only range the theorems use.
* Code that raises exceptions is modelled with `Except PyError`.
-/

/-- The two Modbus register spaces (`REGISTER_TYPE` in `const.py`). -/
inductive RegisterType where
  | input
  | holding
deriving DecidableEq

/-- Register payload encodings (`REGISTER_DATA_TYPE` in `const.py`). -/
inductive RegisterDataType where
  | uint16
  | uint32
  | string
deriving DecidableEq

/-- The `entity` literal of `RegisterDefinition` in `const.py`. -/
inductive EntityKind where
  | sensor
  | number
  | button
  | diagnostic
deriving DecidableEq

/-- The `RegisterDefinition` from `const.py`.  Note: the dataclass defines no
`optional` field; `hub.py` nevertheless reads `reg.optional`, which is
modelled where it occurs (see `all_optional_check`). -/
structure RegisterDefinition where
  key : String
  name : String
  address : ℤ
  count : ℕ
  register_type : RegisterType
  data_type : RegisterDataType
  entity : EntityKind
  scale : ℚ := 1
  unit : Option String := none
  device_class : Option String := none
  state_class : Option String := none
  icon : Option String := none
  entity_category : Option String := none
  options : Option (List (ℕ × String)) := none
  writable : Bool := false
  write_only : Bool := false
  min_value : Option ℚ := none
  max_value : Option ℚ := none
  step : Option ℚ := none
  encoding : Option String := none
  translation_key : Option String := none
deriving DecidableEq

/-- The `CHARGE_POINT_STATE_MAP` from `const.py`. -/
def CHARGE_POINT_STATE_MAP : List (ℕ × String) :=
  [(0, "available"), (1, "preparing"), (2, "charging"), (3, "suspended_evse"),
   (4, "suspended_ev"), (5, "finishing"), (6, "reserved"), (7, "unavailable"),
   (8, "faulted")]

/-- The `CHARGING_STATE_MAP` from `const.py`. -/
def CHARGING_STATE_MAP : List (ℕ × String) :=
  [(0, "idle"), (1, "charging")]

/-- The `EQUIPMENT_STATE_MAP` from `const.py`. -/
def EQUIPMENT_STATE_MAP : List (ℕ × String) :=
  [(0, "starting"), (1, "running"), (2, "fault"), (3, "disabled"), (4, "updating")]

/-- The `CABLE_STATE_MAP` from `const.py`. -/
def CABLE_STATE_MAP : List (ℕ × String) :=
  [(0, "disconnected"), (1, "cable_only"), (2, "vehicle_connected"), (3, "vehicle_locked")]

/-- The `PHASE_COUNT_MAP` from `const.py`. -/
def PHASE_COUNT_MAP : List (ℕ × String) :=
  [(0, "single_phase"), (1, "three_phase")]

/-- The `SMART_VEHICLE_STATE_MAP` from `const.py`. -/
def SMART_VEHICLE_STATE_MAP : List (ℕ × String) :=
  [(0, "not_detected"), (1, "detected")]

/-- The `FAULT_CODE_MAP` from `const.py`. -/
def FAULT_CODE_MAP : List (ℕ × String) :=
  [(0, "ok"), (1, "power_switch_failure"), (2, "internal_error_aux_voltage"),
   (3, "ev_communication_error_control_pilot"), (4, "over_voltage"), (5, "under_voltage"),
   (6, "over_current_failure"), (7, "vac_frequency_error"), (8, "ground_failure"),
   (9, "rcm_self_test_error"), (10, "over_temperature"), (11, "proximity_pilot_error"),
   (12, "shutter_error"), (13, "phase_check_error"), (14, "pwr_internal_error"),
   (15, "ev_communication_error_negative_pilot"), (16, "dc_residual_current_error")]

/-- The `SENSOR_REGISTERS` from `const.py` (in source order). -/
def SENSOR_REGISTERS : List RegisterDefinition :=
  [{ key := "charge_point_state", name := "Charge Point State", address := 1000, count := 1,
     register_type := .holding, data_type := .uint16, entity := .sensor,
     device_class := some ("enum"), icon := some ("mdi:ev-station"),
     options := some CHARGE_POINT_STATE_MAP },
   { key := "charging_state", name := "Charging State", address := 1001, count := 1,
     register_type := .holding, data_type := .uint16, entity := .sensor,
     device_class := some ("enum"), icon := some ("mdi:battery-charging"),
     options := some CHARGING_STATE_MAP },
   { key := "equipment_state", name := "EVSE State", address := 1002, count := 1,
     register_type := .holding, data_type := .uint16, entity := .sensor,
     device_class := some ("enum"), icon := some ("mdi:cog-outline"),
     options := some EQUIPMENT_STATE_MAP },
   { key := "cable_state", name := "Cable State", address := 1004, count := 1,
     register_type := .holding, data_type := .uint16, entity := .sensor,
     device_class := some ("enum"), icon := some ("mdi:cable-data"),
     options := some CABLE_STATE_MAP },
   { key := "fault_code", name := "EVSE Fault Code", address := 1006, count := 1,
     register_type := .holding, data_type := .uint16, entity := .sensor,
     icon := some ("mdi:alert"), entity_category := some ("diagnostic"),
     options := some FAULT_CODE_MAP, translation_key := some ("fault_code") },
   { key := "current_l1_a", name := "Current L1", address := 1008, count := 1,
     register_type := .holding, data_type := .uint16, entity := .sensor,
     scale := 1 / 1000, unit := some ("A"), device_class := some ("current"),
     state_class := some ("measurement"), icon := some ("mdi:current-ac") },
   { key := "current_l2_a", name := "Current L2", address := 1010, count := 1,
     register_type := .holding, data_type := .uint16, entity := .sensor,
     scale := 1 / 1000, unit := some ("A"), device_class := some ("current"),
     state_class := some ("measurement"), icon := some ("mdi:current-ac") },
   { key := "current_l3_a", name := "Current L3", address := 1012, count := 1,
     register_type := .holding, data_type := .uint16, entity := .sensor,
     scale := 1 / 1000, unit := some ("A"), device_class := some ("current"),
     state_class := some ("measurement"), icon := some ("mdi:current-ac") },
   { key := "active_power_total_w", name := "Active Power Total", address := 1020, count := 2,
     register_type := .holding, data_type := .uint32, entity := .sensor,
     unit := some ("W"), device_class := some ("power"),
     state_class := some ("measurement"), icon := some ("mdi:lightning-bolt") },
   { key := "active_power_l1_w", name := "Active Power L1", address := 1024, count := 2,
     register_type := .holding, data_type := .uint32, entity := .sensor,
     unit := some ("W"), device_class := some ("power"),
     state_class := some ("measurement"), icon := some ("mdi:lightning-bolt") },
   { key := "active_power_l2_w", name := "Active Power L2", address := 1028, count := 2,
     register_type := .holding, data_type := .uint32, entity := .sensor,
     unit := some ("W"), device_class := some ("power"),
     state_class := some ("measurement"), icon := some ("mdi:lightning-bolt") },
   { key := "active_power_l3_w", name := "Active Power L3", address := 1032, count := 2,
     register_type := .holding, data_type := .uint32, entity := .sensor,
     unit := some ("W"), device_class := some ("power"),
     state_class := some ("measurement"), icon := some ("mdi:lightning-bolt") },
   { key := "energy_total_kwh", name := "Energy Total", address := 1036, count := 2,
     register_type := .holding, data_type := .uint32, entity := .sensor,
     scale := 1 / 1000, unit := some ("kWh"), device_class := some ("energy"),
     state_class := some ("total_increasing"), icon := some ("mdi:counter") },
   { key := "session_max_current_a", name := "Max Current", address := 1100, count := 1,
     register_type := .holding, data_type := .uint16, entity := .sensor,
     unit := some ("A"), device_class := some ("current"),
     state_class := some ("measurement"), entity_category := some ("diagnostic"),
     icon := some ("mdi:current-ac") },
   { key := "evse_min_current_a", name := "EVSE Min Current", address := 1102, count := 1,
     register_type := .holding, data_type := .uint16, entity := .sensor,
     unit := some ("A"), device_class := some ("current"),
     entity_category := some ("diagnostic"), icon := some ("mdi:current-ac") },
   { key := "evse_max_current_a", name := "EVSE Max Current", address := 1104, count := 1,
     register_type := .holding, data_type := .uint16, entity := .sensor,
     unit := some ("A"), device_class := some ("current"),
     entity_category := some ("diagnostic"), icon := some ("mdi:current-ac") },
   { key := "cable_max_current_a", name := "Cable Max Current", address := 1106, count := 1,
     register_type := .holding, data_type := .uint16, entity := .sensor,
     unit := some ("A"), device_class := some ("current"),
     entity_category := some ("diagnostic"), icon := some ("mdi:current-ac") },
   { key := "ev_max_current_a", name := "EV Max Current", address := 1108, count := 1,
     register_type := .holding, data_type := .uint16, entity := .sensor,
     unit := some ("A"), device_class := some ("current"),
     entity_category := some ("diagnostic"), icon := some ("mdi:current-ac") },
   { key := "charged_energy_wh", name := "Charged Energy", address := 1502, count := 1,
     register_type := .holding, data_type := .uint16, entity := .sensor,
     unit := some ("Wh"), device_class := some ("energy"),
     state_class := some ("measurement"), icon := some ("mdi:battery-clock") },
   { key := "session_start_time", name := "Start Time (hhmmss)", address := 1504, count := 2,
     register_type := .holding, data_type := .uint32, entity := .sensor,
     entity_category := some ("diagnostic"), icon := some ("mdi:clock-start") },
   { key := "session_duration_s", name := "Charging Time", address := 1508, count := 2,
     register_type := .holding, data_type := .uint32, entity := .sensor,
     unit := some ("s"), device_class := some ("duration"),
     state_class := some ("measurement"), entity_category := some ("diagnostic"),
     icon := some ("mdi:timer-outline") },
   { key := "session_end_time", name := "End Time (hhmmss)", address := 1512, count := 2,
     register_type := .holding, data_type := .uint32, entity := .sensor,
     entity_category := some ("diagnostic"), icon := some ("mdi:clock-end") },
   { key := "session_user_id", name := "User ID", address := 1600, count := 10,
     register_type := .holding, data_type := .string, entity := .sensor,
     entity_category := some ("diagnostic"), icon := some ("mdi:card-account-details"),
     encoding := some ("ascii") },
   { key := "smart_vehicle_detected", name := "Smart Vehicle Detected", address := 1620, count := 2,
     register_type := .holding, data_type := .uint32, entity := .sensor,
     device_class := some ("enum"), entity_category := some ("diagnostic"),
     icon := some ("mdi:car-connected"), options := some SMART_VEHICLE_STATE_MAP }]

/-- The `NUMBER_REGISTERS` from `const.py`. -/
def NUMBER_REGISTERS : List RegisterDefinition :=
  [{ key := "failsafe_current_a", name := "Failsafe Current", address := 2000, count := 1,
     register_type := .holding, data_type := .uint16, entity := .number,
     unit := some ("A"), device_class := some ("current"), icon := some ("mdi:current-ac"),
     writable := true, min_value := some 6, max_value := some 32, step := some 1 },
   { key := "failsafe_timeout_s", name := "Failsafe Timeout", address := 2002, count := 1,
     register_type := .holding, data_type := .uint16, entity := .number,
     unit := some ("s"), icon := some ("mdi:timer-outline"),
     writable := true, min_value := some 6, max_value := some 120, step := some 1 },
   { key := "set_current_a", name := "Charging Current Limit", address := 5004, count := 1,
     register_type := .holding, data_type := .uint16, entity := .number,
     unit := some ("A"), device_class := some ("current"), icon := some ("mdi:speedometer"),
     writable := true, write_only := true,
     min_value := some 0, max_value := some 32, step := some 1 }]

/-- The `BUTTON_REGISTERS` from `const.py`. -/
def BUTTON_REGISTERS : List RegisterDefinition :=
  [{ key := "send_keepalive", name := "Send Keepalive", address := 6000, count := 1,
     register_type := .holding, data_type := .uint16, entity := .button,
     icon := some ("mdi:lan-connect"), writable := true, write_only := true },
   { key := "start_session", name := "Start Charging", address := 5006, count := 1,
     register_type := .holding, data_type := .uint16, entity := .button,
     icon := some ("mdi:play"), writable := true, write_only := true },
   { key := "stop_session", name := "Stop Charging", address := 5006, count := 1,
     register_type := .holding, data_type := .uint16, entity := .button,
     icon := some ("mdi:stop-circle"), writable := true, write_only := true }]

/-- The `CONTROL_REGISTERS` from `const.py`. -/
def CONTROL_REGISTERS : List RegisterDefinition :=
  [{ key := "session_command", name := "Session Command", address := 5006, count := 1,
     register_type := .holding, data_type := .uint16, entity := .diagnostic,
     writable := true, write_only := true, entity_category := some ("diagnostic") }]

/-- The `all_registers` from `const.py`: sensor registers plus the number
registers, the latter filtered by `write_only` unless `include_write_only`.
(The source builds the list by appending in a loop; this is the same list.) -/
def all_registers (include_write_only : Bool) : List RegisterDefinition :=
  SENSOR_REGISTERS ++ NUMBER_REGISTERS.filter (fun r => include_write_only || !r.write_only)

/-- The `get_register` from `const.py`: first definition with the given key in
sensor ++ number ++ button ++ control order; `KeyError` modelled as `none`. -/
def get_register (key : String) : Option RegisterDefinition :=
  (SENSOR_REGISTERS ++ NUMBER_REGISTERS ++ BUTTON_REGISTERS ++ CONTROL_REGISTERS).find?
    (fun r => r.key == key)

/-- The `MAX_RETRY_ATTEMPTS` from `const.py`. -/
def MAX_RETRY_ATTEMPTS : ℕ := 3

/-- The `RETRY_BACKOFF_SECONDS` from `const.py`. -/
def RETRY_BACKOFF_SECONDS : ℚ := 1

/-- The `SESSION_COMMAND_START_VALUE` from `const.py`. -/
def SESSION_COMMAND_START_VALUE : ℕ := 1

/-- The `SESSION_COMMAND_STOP_VALUE` from `const.py`. -/
def SESSION_COMMAND_STOP_VALUE : ℕ := 2

/-! ## Read-plan builder (`hub.py`) -/

/-- The `MAX_REGISTERS_PER_REQUEST` from `hub.py`. -/
def MAX_REGISTERS_PER_REQUEST : ℤ := 110

/-- The `ReadRequest` from `hub.py` (the `registers` tuple as a list). -/
structure ReadRequest where
  start_address : ℤ
  count : ℤ
  register_type : RegisterType
  registers : List RegisterDefinition
deriving DecidableEq

/-- Stable insertion of one element into a sorted list (used to model
Python's stable `list.sort`): an element goes after every element the
comparison keeps before it. -/
def insertSorted (le : α → α → Bool) (a : α) : List α → List α
  | [] => [a]
  | b :: t => if le b a then b :: insertSorted le a t else a :: b :: t

/-- Stable sort modelling Python's `list.sort(key=...)`; extensionally the
sorted order Python produces for a total preorder `le`. -/
def pySort (le : α → α → Bool) (l : List α) : List α :=
  l.foldl (fun acc x => insertSorted le x acc) []

/-- One step of the greedy sweep in `_build_read_plan`: `current_regs` is
the open block (in order), `s`/`e` its `current_start`/`current_end`.  The
source starts a new request when `reg_start >= current_end` (the next span
merely touches or is past the block) or the merged span would exceed
`MAX_REGISTERS_PER_REQUEST`. -/
def sweepGo (rt : RegisterType) :
    List RegisterDefinition → List RegisterDefinition → ℤ → ℤ → List ReadRequest
  | [], regs, s, e =>
      [{ start_address := s, count := e - s, register_type := rt, registers := regs }]
  | d :: rest, regs, s, e =>
      let rs : ℤ := d.address
      let re : ℤ := d.address + d.count
      if rs ≥ e ∨ re - s > MAX_REGISTERS_PER_REQUEST then
        { start_address := s, count := e - s, register_type := rt, registers := regs } ::
          sweepGo rt rest [d] rs re
      else
        sweepGo rt rest (regs ++ [d]) s (max e re)

/-- The per-category part of `_build_read_plan`: sort the category's
definitions by address (stably) and run the greedy sweep. -/
def planForType (rt : RegisterType) (definitions : List RegisterDefinition) :
    List ReadRequest :=
  match pySort (fun a b => decide (a.address ≤ b.address))
      (definitions.filter (fun d => d.register_type == rt)) with
  | [] => []
  | d :: rest => sweepGo rt rest [d] d.address (d.address + d.count)

/-- Sort rank of a category in the final `requests.sort`: Python compares
the literal strings, and `"holding" < "input"`. -/
def registerTypeRank : RegisterType → ℕ
  | .holding => 0
  | .input => 1

/-- The `_build_read_plan` from `hub.py`: group by category (the `by_type`
dict iterates `input` then `holding`), sweep each, then sort the requests
by `(register_type, start_address)`. -/
def _build_read_plan (definitions : List RegisterDefinition) : List ReadRequest :=
  pySort
    (fun r₁ r₂ => decide (registerTypeRank r₁.register_type < registerTypeRank r₂.register_type ∨
      (registerTypeRank r₁.register_type = registerTypeRank r₂.register_type ∧
        r₁.start_address ≤ r₂.start_address)))
    (planForType .input definitions ++ planForType .holding definitions)

/-! ## Codec (`hub.py` `_decode_register`, `simulator.py` `_encode_value`) -/

/-- Python's `round` on `ℚ`: round half to even. -/
def pyRound (x : ℚ) : ℤ :=
  if x - ⌊x⌋ < 1 / 2 then ⌊x⌋
  else if 1 / 2 < x - ⌊x⌋ then ⌊x⌋ + 1
  else if Even ⌊x⌋ then ⌊x⌋ else ⌊x⌋ + 1

/-- Python's `int(...)` on `ℚ`: truncation toward zero. -/
def pyInt (x : ℚ) : ℤ :=
  if x < 0 then ⌈x⌉ else ⌊x⌋

/-- A decoded register value as returned by `_decode_register`: a Python
`int`, `float`, or `str` (text kept as bytes, see the file header). -/
inductive Value where
  | intVal : ℤ → Value
  | ratVal : ℚ → Value
  | strVal : List ℕ → Value
deriving DecidableEq

/-- A Python value fed to `_encode_value` (scenario values and caller
arguments): `None`, `int`, `float`, or `str` (as bytes). -/
inductive PyValue where
  | noneV : PyValue
  | intV : ℤ → PyValue
  | ratV : ℚ → PyValue
  | strV : List ℕ → PyValue
deriving DecidableEq

/-- The numeric reading of a `PyValue` (`float(value)` in the source);
`none` for `None` and for text, which is outside the numeric model. -/
def numOf : PyValue → Option ℚ
  | .intV n => some n
  | .ratV q => some q
  | _ => none

/-- Exceptions raised by the modelled code. -/
inductive PyError where
  | webastoModbus : String → PyError
  | attributeError : String → PyError
  | valueError : String → PyError
  | keyError : String → PyError
deriving DecidableEq

/-- The `register.to_bytes(2, "big")` for a 16-bit word. -/
def wordBytes (w : ℕ) : List ℕ :=
  [w / 256, w % 256]

/-- The `int.from_bytes(chunk, "big")` over consecutive 2-byte chunks (the
encode loop in `_encode_value`; the input always has even length). -/
def chunkWords : List ℕ → List ℕ
  | [] => []
  | [b] => [b]
  | b₀ :: b₁ :: rest => (b₀ * 256 + b₁) :: chunkWords rest

/-- Whether a byte is whitespace for Python's `str.strip()` (ASCII range). -/
def isSpaceByte (b : ℕ) : Bool :=
  (9 ≤ b && b ≤ 13) || (28 ≤ b && b ≤ 32)

/-- The `byte_buffer.rstrip(b"\x00")`. -/
def rstripNul (bs : List ℕ) : List ℕ :=
  (bs.reverse.dropWhile (fun b => b == 0)).reverse

/-- Python's `str.strip()` at the byte level. -/
def pyStrip (bs : List ℕ) : List ℕ :=
  ((bs.dropWhile isSpaceByte).reverse.dropWhile isSpaceByte).reverse

/-- The numeric tail of `_decode_register`: `value = raw * scale`, returned
as `int(value)` when `scale == 1` and as a float otherwise. -/
def decodeNumeric (d : RegisterDefinition) (raw : ℕ) : Value :=
  if d.scale = 1 then .intVal (pyInt (raw * d.scale)) else .ratVal (raw * d.scale)

/-- The `_decode_register` from `hub.py`.  Text: words to big-endian bytes,
strip trailing NULs, charset-decode (identity on bytes here), then
`str.strip()`.  Numerics: `data[0]` resp. `(data[0] << 16) + data[1]`
(the callers guarantee the expected word count, so out-of-range indexing
is totalised with 0). -/
def _decode_register (d : RegisterDefinition) (data : List ℕ) : Value :=
  match d.data_type with
  | .string => .strVal (pyStrip (rstripNul (data.flatMap wordBytes)))
  | .uint16 => decodeNumeric d (data.getD 0 0)
  | .uint32 => decodeNumeric d ((data.getD 0 0) <<< 16 + data.getD 1 0)

/-- The `_encode_value` from `simulator.py`.  `None` becomes `count` zero
words; text is padded with NULs to `2 * count` bytes (`ValueError` if it
does not fit) and chunked into big-endian words; numerics are divided by
the scale (when it is not 1), rounded, range-checked, and split into
words.  `str(...)`/`float(...)` conversions between text and numbers are
outside the model. -/
def _encode_value (d : RegisterDefinition) (v : PyValue) : Except PyError (List ℕ) :=
  match v with
  | .noneV => .ok (List.replicate d.count 0)
  | _ =>
    match d.data_type with
    | .string =>
      match v with
      | .strV bs =>
        let byteLength := d.count * 2
        if bs.length > byteLength then
          .error (.valueError (d.key))
        else
          .ok (chunkWords (bs ++ List.replicate (byteLength - bs.length) 0))
      | _ => .error (.valueError (d.key))
    | .uint16 =>
      match numOf v with
      | some q =>
        let raw : ℤ := if d.scale ≠ 1 then pyRound (q / d.scale) else pyRound q
        if 0 ≤ raw ∧ raw ≤ 65535 then .ok [raw.toNat]
        else .error (.valueError (d.key))
      | none => .error (.valueError (d.key))
    | .uint32 =>
      match numOf v with
      | some q =>
        let raw : ℤ := if d.scale ≠ 1 then pyRound (q / d.scale) else pyRound q
        if 0 ≤ raw ∧ raw ≤ 4294967295 then
          .ok [(raw.toNat >>> 16) &&& 65535, raw.toNat &&& 65535]
        else .error (.valueError (d.key))
      | none => .error (.valueError (d.key))

/-! ## Retry policy and transport (`hub.py` `_call_with_retry`,
`async_write_register`, `_async_read_data_once`) -/

/-- The outcome of one awaited attempt of the wrapped coroutine. -/
inductive AttemptResult (α : Type u) where
  | ok : α → AttemptResult α
  | raise : PyError → AttemptResult α
  | cancelled : AttemptResult α

/-- Observable side effects of `_call_with_retry`: each awaited attempt,
each `async_close`, and each backoff sleep (seconds). -/
inductive RetryEvent where
  | attempt : ℕ → RetryEvent
  | close : RetryEvent
  | sleep : ℚ → RetryEvent
deriving DecidableEq

/-- What `_call_with_retry` does for its caller. -/
inductive RetryOutcome (α : Type u) where
  | ok : α → RetryOutcome α
  | raised : PyError → RetryOutcome α
  | cancelled : RetryOutcome α

/-- Whether an exception is caught by the `except WebastoModbusError`
clause of `_call_with_retry`. -/
def isWebastoModbusError : PyError → Bool
  | .webastoModbus _ => true
  | _ => false

/-- The retry loop of `_call_with_retry`, from attempt number `attempt`
with `remaining` further attempts allowed.  `CancelledError` is re-raised
immediately; a `WebastoModbusError` closes the connection and, unless this
was the final attempt, sleeps `RETRY_BACKOFF_SECONDS * attempt` and
retries; any other exception propagates uncaught. -/
def callWithRetryGo (f : ℕ → AttemptResult α) :
    ℕ → ℕ → RetryOutcome α × List RetryEvent
  | attempt, 0 =>
    match f attempt with
    | .ok v => (.ok v, [.attempt attempt])
    | .cancelled => (.cancelled, [.attempt attempt])
    | .raise e =>
      if isWebastoModbusError e then (.raised e, [.attempt attempt, .close])
      else (.raised e, [.attempt attempt])
  | attempt, r + 1 =>
    match f attempt with
    | .ok v => (.ok v, [.attempt attempt])
    | .cancelled => (.cancelled, [.attempt attempt])
    | .raise e =>
      if isWebastoModbusError e then
        let rest := callWithRetryGo f (attempt + 1) r
        (rest.1, .attempt attempt :: .close ::
          .sleep (RETRY_BACKOFF_SECONDS * (attempt : ℚ)) :: rest.2)
      else (.raised e, [.attempt attempt])

/-- The `_call_with_retry` from `hub.py`: attempts run `1 .. MAX_RETRY_ATTEMPTS`. -/
def _call_with_retry (f : ℕ → AttemptResult α) : RetryOutcome α × List RetryEvent :=
  callWithRetryGo f 1 (MAX_RETRY_ATTEMPTS - 1)

/-- The `async_write_register` from `hub.py`: a non-writable definition raises
`ValueError` before any wire traffic; otherwise the single-register write
runs under `_call_with_retry`.  `f` stands for the wire attempts of
`_async_write_register_once` (a closure over `value`). -/
def async_write_register (d : RegisterDefinition) (_value : ℤ)
    (f : ℕ → AttemptResult Unit) : RetryOutcome Unit × List RetryEvent :=
  if d.writable then _call_with_retry f
  else (.raised (.valueError ("Register " ++ d.key ++ " is not writable")), [])

/-! ## Life-bit loop (`hub.py` `_life_bit_loop`) -/

/-- Observable actions of one life-bit cycle that the claims mention. -/
inductive LifeBitEvent where
  | readTimeoutRegister : LifeBitEvent
  | writeLifeBit : ℕ → LifeBitEvent
deriving DecidableEq

/-- What one cycle of `_life_bit_loop` records. -/
structure LifeBitCycle where
  pollTimeout : ℤ
  events : List LifeBitEvent
deriving DecidableEq

/-- The poll window a cycle uses: `poll_timeout` is re-initialised to the
default 60 at the top of every iteration and overwritten only when the
timeout-register read succeeds with a numeric value. -/
def lifeBitPollTimeout (readResult : Except PyError PyValue) : ℤ :=
  match readResult with
  | .ok (.intV n) => n
  | .ok (.ratV q) => pyInt q
  | _ => 60

/-- One cycle of `_life_bit_loop` given that cycle's timeout-register read
result: the read happens first, then `1` is written to the life-bit
register.  (The subsequent clear-polling is wall-clock bounded and not
modelled; it does not affect the claims.) -/
def lifeBitCycle (readResult : Except PyError PyValue) : LifeBitCycle :=
  { pollTimeout := lifeBitPollTimeout readResult
    events := [.readTimeoutRegister, .writeLifeBit 1] }

/-- Successive cycles of `_life_bit_loop`; the loop body keeps no state
between iterations, so the run is the per-cycle map. -/
def lifeBitRun (reads : List (Except PyError PyValue)) : List LifeBitCycle :=
  reads.map lifeBitCycle

/-! ## Bulk read (`hub.py` `_async_read_data_once`) -/

/-- The wire response for one planned block: either the client raised a
`ModbusException` (re-raised as `WebastoModbusError`), or a response
object with its `isError()` flag and register words. -/
inductive BlockResponse where
  | exn : String → BlockResponse
  | resp : Bool → List ℕ → BlockResponse

/-- The `all(reg.optional for reg in request.registers)`: `RegisterDefinition`
in `const.py` defines no `optional` field (it is a frozen, slotted
dataclass), so the first evaluation of `reg.optional` raises
`AttributeError`; only an empty block yields `True`. -/
def all_optional_check : List RegisterDefinition → Except PyError Bool
  | [] => .ok true
  | _ :: _ => .error (.attributeError ("optional"))

/-- Decode one definition out of a successful block response: slice the
block's words at the definition's offset and decode, `None` on a length
mismatch (`offset` is non-negative for plan-built requests). -/
def sliceAndDecode (request : ReadRequest) (registers : List ℕ)
    (d : RegisterDefinition) : Option Value :=
  let offset := (d.address - request.start_address).toNat
  let register_values := (registers.drop offset).take d.count
  if register_values.length ≠ d.count then none
  else some (_decode_register d register_values)

/-- The per-request loop of `_async_read_data_once`, threading the data
dict (as an ordered association list) and the possibly pruned plan. -/
def readDataOnceGo (resp : ReadRequest → BlockResponse) :
    List ReadRequest → List ReadRequest → List (String × Option Value) →
    Except PyError (List (String × Option Value) × List ReadRequest)
  | [], plan, data => .ok (data, plan)
  | request :: rest, plan, data =>
    match resp request with
    | .exn msg => .error (.webastoModbus msg)
    | .resp true _ =>
      match all_optional_check request.registers with
      | .error e => .error e
      | .ok all_optional =>
        let plan' := if all_optional then
            plan.filter (fun r => r.start_address ≠ request.start_address)
          else plan
        readDataOnceGo resp rest plan'
          (data ++ request.registers.map (fun d => (d.key, none)))
    | .resp false registers =>
      readDataOnceGo resp rest plan
        (data ++ request.registers.map (fun d => (d.key, sliceAndDecode request registers d)))

/-- The `_async_read_data_once` from `hub.py`, over a given cached plan and
the wire responses of this cycle: returns the decoded data map and the
plan left for future cycles (pruning happens only in the unreachable
empty-block case, because the `optional` probe raises first). -/
def _async_read_data_once (plan : List ReadRequest) (resp : ReadRequest → BlockResponse) :
    Except PyError (List (String × Option Value) × List ReadRequest) :=
  readDataOnceGo resp plan plan []

/-- The read plan cached by `ModbusBridge.__init__`:
`_build_read_plan(all_registers(include_write_only=False))`. -/
def bridgeReadPlan : List ReadRequest :=
  _build_read_plan (all_registers false)

/-! ## Virtual wallbox simulator (`simulator.py`) -/

/-- The full register table the simulator indexes by key
(`_definitions_by_key`, in source order; later duplicates of a key are
harmless because `dict` keeps the first lookup result... in CPython the
comprehension keeps the *last* value per key, but all keys here are
unique, so the order below is the iteration order). -/
def catalogAll : List RegisterDefinition :=
  SENSOR_REGISTERS ++ NUMBER_REGISTERS ++ BUTTON_REGISTERS ++ CONTROL_REGISTERS

/-- A register store (`dict[int, int]`) as an ordered association list. -/
abbrev RegStore := List (ℤ × ℕ)

/-- The `store.get(address)`. -/
def alookup (store : RegStore) (address : ℤ) : Option ℕ :=
  (List.find? (fun p => p.1 == address) store).map (fun p => p.2)

/-- The `store.setdefault(address, value)` (insertion keeps dict order). -/
def setdefault (store : RegStore) (address : ℤ) (value : ℕ) : RegStore :=
  if (alookup store address).isSome then store else List.append store [(address, value)]

/-- The `store[address] = value` (overwriting keeps the original position). -/
def astore (store : RegStore) (address : ℤ) (value : ℕ) : RegStore :=
  if (alookup store address).isSome then
    store.map (fun p => if p.1 == address then (address, value) else p)
  else List.append store [(address, value)]

/-- The `VirtualWallboxState`: the two word-indexed stores plus the scenario
unit id. -/
structure VirtualWallboxState where
  unit_id : ℕ
  input_registers : RegStore
  holding_registers : RegStore

/-- Pick the store `read_block`/`_apply_value` target for a category. -/
def storeOf (st : VirtualWallboxState) : RegisterType → RegStore
  | .input => st.input_registers
  | .holding => st.holding_registers

/-- The store `reset` builds for one category: clear, then
`setdefault(address + offset, 0)` for every catalog definition of that
category and every offset below its count. -/
def resetStore (rt : RegisterType) : RegStore :=
  catalogAll.foldl
    (fun store d =>
      if d.register_type == rt then
        (List.range d.count).foldl (fun s (off : ℕ) => setdefault s (d.address + (off : ℤ)) 0)
          store
      else store)
    []

/-- The `VirtualWallboxState.reset`: zero out both stores from the catalog. -/
def VirtualWallboxState.reset (st : VirtualWallboxState) : VirtualWallboxState :=
  { st with input_registers := resetStore .input, holding_registers := resetStore .holding }

/-- The `VirtualWallboxState.read_block`: `count` words starting at
`start_address`, missing addresses defaulting to 0. -/
def VirtualWallboxState.read_block (st : VirtualWallboxState) (rt : RegisterType)
    (start_address : ℤ) (count : ℕ) : List ℕ :=
  (List.range count).map
    (fun (off : ℕ) => (alookup (storeOf st rt) (start_address + (off : ℤ))).getD 0)

/-- Write encoded words into the category store of a definition
(the inner loop of `_apply_value`). -/
def writeWords (st : VirtualWallboxState) (d : RegisterDefinition) (raws : List ℕ) :
    VirtualWallboxState :=
  match d.register_type with
  | .input =>
    { st with input_registers :=
        (raws.enum.foldl (fun s p => astore s (d.address + (p.1 : ℤ)) p.2)
          st.input_registers) }
  | .holding =>
    { st with holding_registers :=
        (raws.enum.foldl (fun s p => astore s (d.address + (p.1 : ℤ)) p.2)
          st.holding_registers) }

/-- The `VirtualWallboxState._apply_value`: look the key up in the catalog
(`KeyError` if absent), encode, store. -/
def _apply_value (st : VirtualWallboxState) (key : String) (value : PyValue) :
    Except PyError VirtualWallboxState :=
  match catalogAll.find? (fun d => d.key == key) with
  | none => .error (.keyError key)
  | some d =>
    match _encode_value d value with
    | .error e => .error e
    | .ok raws => .ok (writeWords st d raws)

/-- The `VirtualWallboxState.apply_values`: apply the updates in order; the
first exception propagates. -/
def apply_values (st : VirtualWallboxState) :
    List (String × PyValue) → Except PyError VirtualWallboxState
  | [] => .ok st
  | (key, value) :: rest =>
    match _apply_value st key value with
    | .error e => .error e
    | .ok st' => apply_values st' rest

/-- A simulator `Scenario`: unit id, initial value map and write-action
table, all in source order. -/
structure Scenario where
  unit_id : ℕ := 255
  values : List (String × PyValue) := []
  write_actions : List (String × List (ℕ × List (String × PyValue))) := []

/-- The `Scenario.create_state`: reset from the catalog, then apply the
initial values (a `KeyError`/`ValueError` escapes the constructor). -/
def Scenario.create_state (sc : Scenario) : Except PyError VirtualWallboxState :=
  apply_values
    (VirtualWallboxState.reset { unit_id := sc.unit_id, input_registers := [], holding_registers := [] })
    sc.values

/-- The bytes of an ASCII scenario string. -/
def asciiBytes (s : String) : List ℕ :=
  s.data.map Char.toNat

/-- The `build_default_scenario` from `simulator.py` (verbatim key order). -/
def build_default_scenario : Scenario :=
  { unit_id := 255
    values :=
      [("serial_number", .strV (asciiBytes ("SIM-WB-0001"))),
       ("charge_point_id", .strV (asciiBytes ("SIMULATOR"))),
       ("charge_point_brand", .strV (asciiBytes ("Webasto"))),
       ("charge_point_model", .strV (asciiBytes ("Next"))),
       ("firmware_version", .strV (asciiBytes ("1.0.0"))),
       ("charge_point_state", .intV 0),
       ("charging_state", .intV 0),
       ("equipment_state", .intV 1),
       ("cable_state", .intV 2),
       ("fault_code", .intV 0),
       ("current_l1_a", .intV 0),
       ("current_l2_a", .intV 0),
       ("current_l3_a", .intV 0),
       ("voltage_l1_v", .intV 230),
       ("voltage_l2_v", .intV 230),
       ("voltage_l3_v", .intV 230),
       ("active_power_total_w", .intV 0),
       ("active_power_l1_w", .intV 0),
       ("active_power_l2_w", .intV 0),
       ("active_power_l3_w", .intV 0),
       ("energy_total_kwh", .ratV (1234567 / 1000)),
       ("session_max_current_a", .intV 32),
       ("evse_min_current_a", .intV 6),
       ("evse_max_current_a", .intV 32),
       ("cable_max_current_a", .intV 32),
       ("ev_max_current_a", .intV 32),
       ("charged_energy_wh", .intV 0),
       ("session_start_time", .intV 0),
       ("session_duration_s", .intV 0),
       ("session_end_time", .intV 0),
       ("rated_power_w", .intV 22000),
       ("phase_configuration", .intV 1),
       ("charge_power_w", .intV 0),
       ("failsafe_current_a", .intV 16),
       ("failsafe_timeout_s", .intV 60)]
    write_actions :=
      [("session_command",
        [(SESSION_COMMAND_START_VALUE,
          [("charging_state", .intV 1),
           ("charge_point_state", .intV 2),
           ("active_power_total_w", .intV 7400),
           ("active_power_l1_w", .intV 2466),
           ("active_power_l2_w", .intV 2466),
           ("active_power_l3_w", .intV 2466),
           ("charge_power_w", .intV 7400)]),
         (SESSION_COMMAND_STOP_VALUE,
          [("charging_state", .intV 0),
           ("charge_point_state", .intV 0),
           ("active_power_total_w", .intV 0),
           ("active_power_l1_w", .intV 0),
           ("active_power_l2_w", .intV 0),
           ("active_power_l3_w", .intV 0),
           ("charge_power_w", .intV 0)])])] }

/-! ## Representability and round-trip statements for the codec claims -/

/-- The raw upper bound of a numeric register width. -/
def maxRaw (d : RegisterDefinition) : ℚ :=
  match d.data_type with
  | .uint16 => 65535
  | .uint32 => 4294967295
  | .string => 0

/-- Representability of a value for a definition, following the claim:
numerics must be non-negative and, after dividing by the (positive)
scale, within the bit width (at scale 1 the division is the identity and
is skipped, exactly as the encoder skips it; the claim there speaks of
integer values); text must be charset-encodable (ASCII bytes here)
within `2 * count` bytes. -/
def representable (d : RegisterDefinition) (v : PyValue) : Bool :=
  match d.data_type, v with
  | .string, .strV bs => decide (bs.length ≤ 2 * d.count) && bs.all (fun b => b < 128)
  | .string, _ => false
  | _, _ =>
    match numOf v with
    | some q =>
      decide (0 < d.scale) && decide (0 ≤ q) &&
        decide ((if d.scale = 1 then q else q / d.scale) ≤ maxRaw d) &&
        (!(d.scale == 1) || q.den == 1)
    | none => false

/-- A text value survives `rstrip(b"\x00")` plus `str.strip()`: it has no
trailing NUL byte and no leading or trailing whitespace. -/
def textRoundtripSafe (bs : List ℕ) : Bool :=
  match bs with
  | [] => true
  | _ :: _ =>
    !(bs.getLastD 0 == 0) && !isSpaceByte (bs.getLastD 0) && !isSpaceByte (bs.headD 0)

/-- Representability amended with the padding-safety condition on text
(the amendment claim C4 needs). -/
def representableAmended (d : RegisterDefinition) (v : PyValue) : Bool :=
  representable d v &&
    (match v with
     | .strV bs => textRoundtripSafe bs
     | _ => true)

/-- The round-trip relation of claim C4: encoding succeeds, and decoding
the produced words returns the value — exactly (as an `int`) for scale-1
numerics and for text, within one scale-step for scaled numerics. -/
def decodeEncodeOk (d : RegisterDefinition) (v : PyValue) : Prop :=
  ∃ ws, _encode_value d v = .ok ws ∧
    (match d.data_type, v with
     | .string, .strV bs => _decode_register d ws = .strVal bs
     | .string, _ => False
     | _, _ =>
       match numOf v with
       | some q =>
         if d.scale = 1 then _decode_register d ws = .intVal q.num
         else ∃ q', _decode_register d ws = .ratVal q' ∧ |q' - q| ≤ d.scale
       | none => False)

/-- Convenience selector for a concrete catalog entry (total: falls back
to a dummy definition for keys the catalog lacks; only used at keys whose
presence the surrounding theorem establishes). -/
def findRegister (key : String) : RegisterDefinition :=
  (catalogAll.find? (fun d => d.key == key)).getD
    { key := key, name := key, address := 0, count := 0,
      register_type := .holding, data_type := .uint16, entity := .sensor }

/-- Claim C1 (code_bug evidence): during a bulk read over the cached
bridge plan, a block whose response reports a protocol-level error makes
`_async_read_data_once` raise `AttributeError` — `RegisterDefinition` has
no `optional` field — instead of mapping the block's keys to `null`; the
error is not a `WebastoModbusError`, so `_call_with_retry` lets it
propagate to the caller after a single attempt, aborting the cycle. -/
theorem c1_block_error_raises_attribute_error :
    _async_read_data_once bridgeReadPlan (fun _ => .resp true []) =
      .error (.attributeError ("optional")) ∧
    _call_with_retry (α := List (String × Option Value) × List ReadRequest)
        (fun _ => .raise (.attributeError ("optional"))) =
      (.raised (.attributeError ("optional")), [.attempt 1]) := by
  constructor
  · rfl
  · rfl

/-- Claim C2 (code_bug evidence): `charge_point_state` (address 1000, one
word) and `charging_state` (address 1001, one word) are contiguous and
their merged span of two words is far below `MAX_REGISTERS_PER_REQUEST`,
yet `_build_read_plan` emits two separate single-register requests,
because the sweep starts a new request already when the next span merely
touches the current block (`reg_start >= current_end`). -/
theorem c2_contiguous_registers_not_merged :
    (findRegister ("charging_state")).address =
      (findRegister ("charge_point_state")).address +
        ((findRegister ("charge_point_state")).count : ℤ) ∧
    (findRegister ("charging_state")).address +
        ((findRegister ("charging_state")).count : ℤ) -
        (findRegister ("charge_point_state")).address ≤ MAX_REGISTERS_PER_REQUEST ∧
    (_build_read_plan [findRegister ("charge_point_state"), findRegister ("charging_state")]).map
        (fun r => (r.start_address, r.count, r.registers.map (fun d => d.key))) =
      [(1000, 1, [("charge_point_state" : String)]), (1001, 1, [("charging_state" : String)])] := by
  refine ⟨by decide, by decide, by decide⟩

/-- Claim C9 (code_bug evidence): materialising the default scenario
fails: its first initial value is keyed `serial_number`, which the
register catalog does not contain, so `create_state` raises `KeyError`
before any session-command behaviour can be exercised. -/
theorem c9_default_scenario_raises_keyerror :
    build_default_scenario.create_state = .error (.keyError ("serial_number")) ∧
    catalogAll.find? (fun d => d.key == ("serial_number")) = none := by
  constructor
  · rfl
  · rfl

/-- Claim C10: `all_registers` never returns a button or control register,
even with `include_write_only = True` (it concatenates only the sensor and
number tables); the bridge's read plan therefore never covers the
`session_command`, `send_keepalive`, `start_session` or `stop_session`
registers, although `get_register` resolves all four from the catalog. -/
theorem c10_all_registers_excludes_buttons_and_controls :
    all_registers true = SENSOR_REGISTERS ++ NUMBER_REGISTERS ∧
    ((all_registers true ++ all_registers false).all (fun d =>
      !((BUTTON_REGISTERS ++ CONTROL_REGISTERS).any (fun b => b.key == d.key)))) = true ∧
    (bridgeReadPlan.all (fun r => r.registers.all (fun d =>
      !(["session_command", "send_keepalive", "start_session", "stop_session"].contains
        d.key)))) = true ∧
    (["session_command", "send_keepalive", "start_session", "stop_session"].all
      (fun k => (get_register k).isSome)) = true := by
  refine ⟨by rfl, by decide, by decide, by decide⟩

/-- Claim C6 (counterexample): a cycle whose timeout-register read fails
uses the fixed default of 60 seconds as its poll window even though the
previous cycle read 120 — `poll_timeout` is re-initialised to 60 at the
top of every iteration, so no last-known value is kept. -/
theorem c6_failed_read_uses_default_not_last_known :
    (lifeBitRun [.ok (.intV 120), .error (.webastoModbus ("read failed"))]).map
        (fun c => c.pollTimeout) = [120, 60] ∧
    (60 : ℤ) ≠ 120 := by
  refine ⟨by decide, by decide⟩

/-- Claim C6 (amended): each cycle of the life-bit loop first re-reads the
timeout register and only then writes `1` to the life-bit register; a
cycle whose read succeeds with a numeric value uses it as the poll
window, and a cycle whose read fails uses the fixed default of 60 seconds
(no value is carried over from previous cycles). -/
theorem c6_life_bit_cycle_order (reads : List (Except PyError PyValue)) (i : ℕ)
    (h : i < (lifeBitRun reads).length) (hr : i < reads.length) :
    ((lifeBitRun reads).get ⟨i, h⟩).events = [.readTimeoutRegister, .writeLifeBit 1] ∧
    ((lifeBitRun reads).get ⟨i, h⟩).pollTimeout = lifeBitPollTimeout (reads.get ⟨i, hr⟩) ∧
    (∀ e : PyError, reads.get ⟨i, hr⟩ = .error e →
      ((lifeBitRun reads).get ⟨i, h⟩).pollTimeout = 60) := by
  refine ⟨?_, ?_, ?_⟩
  · simp [lifeBitRun, lifeBitCycle]
  · simp [lifeBitRun, lifeBitCycle]
  · intro e he
    rw [List.get_eq_getElem] at he
    simp [lifeBitRun, lifeBitCycle, lifeBitPollTimeout, he]

/-- Witness for `c6_life_bit_cycle_order` at a concrete failing cycle. -/
theorem c6_life_bit_cycle_order_witness :
    ((lifeBitRun [.error (.webastoModbus ("boom"))]).get ⟨0, by decide⟩).events =
        [.readTimeoutRegister, .writeLifeBit 1] ∧
      ((lifeBitRun [.error (.webastoModbus ("boom"))]).get ⟨0, by decide⟩).pollTimeout =
        lifeBitPollTimeout ([.error (.webastoModbus ("boom"))].get ⟨0, by decide⟩) ∧
      (∀ e : PyError,
        ([(.error (.webastoModbus ("boom")) : Except PyError PyValue)].get ⟨0, by decide⟩) =
            .error e →
        ((lifeBitRun [.error (.webastoModbus ("boom"))]).get ⟨0, by decide⟩).pollTimeout = 60) :=
  c6_life_bit_cycle_order [.error (.webastoModbus ("boom"))] 0 (by decide) (by decide)

/-- Claim C5: `_call_with_retry` closes the connection on every
transport-level failure, sleeps `RETRY_BACKOFF_SECONDS * attempt` before
every retry except after the final attempt, re-raises the last observed
error unchanged once the budget of `MAX_RETRY_ATTEMPTS = 3` is exhausted,
and propagates a cancellation immediately without closing, sleeping or
retrying. -/
theorem c5_retry_policy {α : Type} (f : ℕ → AttemptResult α) (e₁ e₂ e₃ : String) (v : α) :
    (f 1 = .raise (.webastoModbus e₁) → f 2 = .raise (.webastoModbus e₂) →
      f 3 = .raise (.webastoModbus e₃) →
      _call_with_retry f = (.raised (.webastoModbus e₃),
        [.attempt 1, .close, .sleep (RETRY_BACKOFF_SECONDS * 1),
         .attempt 2, .close, .sleep (RETRY_BACKOFF_SECONDS * 2),
         .attempt 3, .close])) ∧
    (f 1 = .raise (.webastoModbus e₁) → f 2 = .ok v →
      _call_with_retry f = (.ok v,
        [.attempt 1, .close, .sleep (RETRY_BACKOFF_SECONDS * 1), .attempt 2])) ∧
    (f 1 = .raise (.webastoModbus e₁) → f 2 = .cancelled →
      _call_with_retry f = (.cancelled,
        [.attempt 1, .close, .sleep (RETRY_BACKOFF_SECONDS * 1), .attempt 2])) ∧
    (f 1 = .cancelled → _call_with_retry f = (.cancelled, [.attempt 1])) := by
  refine ⟨?_, ?_, ?_, ?_⟩
  · intro h1 h2 h3
    simp [_call_with_retry, MAX_RETRY_ATTEMPTS, callWithRetryGo, h1, h2, h3,
      isWebastoModbusError]
  · intro h1 h2
    simp [_call_with_retry, MAX_RETRY_ATTEMPTS, callWithRetryGo, h1, h2, isWebastoModbusError]
  · intro h1 h2
    simp [_call_with_retry, MAX_RETRY_ATTEMPTS, callWithRetryGo, h1, h2, isWebastoModbusError]
  · intro h1
    simp [_call_with_retry, MAX_RETRY_ATTEMPTS, callWithRetryGo, h1]

/-- Witness for `c5_retry_policy`: three consecutive transport failures
exhaust the budget with the documented close/sleep trace; cancellation at
the first attempt propagates alone. -/
theorem c5_retry_policy_witness :
    ((fun n => if n < 4 then AttemptResult.raise (α := ℕ) (.webastoModbus (toString n))
        else .ok 0) 1 = .raise (.webastoModbus (toString 1)) →
      (fun n => if n < 4 then AttemptResult.raise (α := ℕ) (.webastoModbus (toString n))
        else .ok 0) 2 = .raise (.webastoModbus (toString 2)) →
      (fun n => if n < 4 then AttemptResult.raise (α := ℕ) (.webastoModbus (toString n))
        else .ok 0) 3 = .raise (.webastoModbus (toString 3)) →
      _call_with_retry (fun n => if n < 4 then
          AttemptResult.raise (α := ℕ) (.webastoModbus (toString n)) else .ok 0) =
        (.raised (.webastoModbus (toString 3)),
          [.attempt 1, .close, .sleep (RETRY_BACKOFF_SECONDS * 1),
           .attempt 2, .close, .sleep (RETRY_BACKOFF_SECONDS * 2),
           .attempt 3, .close])) ∧
    _call_with_retry (fun n => if n < 4 then
        AttemptResult.raise (α := ℕ) (.webastoModbus (toString n)) else .ok 0) =
      (.raised (.webastoModbus (toString 3)),
        [.attempt 1, .close, .sleep (RETRY_BACKOFF_SECONDS * 1),
         .attempt 2, .close, .sleep (RETRY_BACKOFF_SECONDS * 2),
         .attempt 3, .close]) ∧
    _call_with_retry (fun _ => AttemptResult.cancelled (α := ℕ)) = (.cancelled, [.attempt 1]) := by
  refine ⟨?_, ?_, ?_⟩
  · exact (c5_retry_policy (fun n => if n < 4 then
      AttemptResult.raise (.webastoModbus (toString n)) else .ok 0)
      (toString 1) (toString 2) (toString 3) 0).1
  · exact (c5_retry_policy (fun n => if n < 4 then
      AttemptResult.raise (.webastoModbus (toString n)) else .ok 0)
      (toString 1) (toString 2) (toString 3) 0).1 (by rfl) (by rfl) (by rfl)
  · exact (c5_retry_policy (fun _ => AttemptResult.cancelled (α := ℕ))
      (toString 1) (toString 2) (toString 3) 0).2.2.2 (by rfl)

/-- Claim C7: `async_write_register` on a non-writable definition raises
`ValueError` with no wire traffic at all (no attempt, no retry); on a
writable definition the write runs exactly under the `_call_with_retry`
policy. -/
theorem c7_write_register_not_writable (d : RegisterDefinition) (value : ℤ)
    (f : ℕ → AttemptResult Unit) :
    (d.writable = false →
      async_write_register d value f =
        (.raised (.valueError ("Register " ++ d.key ++ " is not writable")), [])) ∧
    (d.writable = true → async_write_register d value f = _call_with_retry f) := by
  constructor
  · intro h
    simp [async_write_register, h]
  · intro h
    simp [async_write_register, h]

/-- Witness for `c7_write_register_not_writable`: `charge_point_state` is
read-only and fails with no events; `failsafe_current_a` is writable and
defers to the retry wrapper. -/
theorem c7_write_register_not_writable_witness :
    async_write_register (findRegister ("charge_point_state")) 1 (fun _ => .ok ()) =
      (.raised (.valueError ("Register " ++ (findRegister ("charge_point_state")).key ++
        " is not writable")), []) ∧
    async_write_register (findRegister ("failsafe_current_a")) 1 (fun _ => .ok ()) =
      _call_with_retry (fun _ => .ok ()) :=
  ⟨(c7_write_register_not_writable (findRegister ("charge_point_state")) 1
      (fun _ => .ok ())).1 (by decide),
   (c7_write_register_not_writable (findRegister ("failsafe_current_a")) 1
      (fun _ => .ok ())).2 (by decide)⟩

/-- A store whose entries are all zero yields zero for every lookup. -/
lemma alookup_getD_zero (store : RegStore) (hall : ∀ p ∈ store, p.2 = 0) (a : ℤ) :
    (alookup store a).getD 0 = 0 := by
  unfold alookup
  cases hfind : List.find? (fun p => p.1 == a) store with
  | none => rfl
  | some p =>
    have hmem : p ∈ store := List.mem_of_find?_eq_some hfind
    simp [hall p hmem]

/-- The `setdefault` with value 0 preserves the all-zero invariant. -/
lemma setdefault_preserves_zero (s : RegStore) (a : ℤ) (h : ∀ p ∈ s, p.2 = 0) :
    ∀ p ∈ setdefault s a 0, p.2 = 0 := by
  unfold setdefault
  split
  · exact h
  · intro p hp
    rcases List.mem_append.mp hp with hs | hnew
    · exact h p hs
    · simp only [List.mem_singleton] at hnew
      simp [hnew]

/-- The zero-defaults loop of `reset` preserves the all-zero invariant. -/
lemma rangeFold_preserves_zero (l : List ℕ) (base : ℤ) (s : RegStore)
    (h : ∀ p ∈ s, p.2 = 0) :
    ∀ p ∈ l.foldl (fun s (off : ℕ) => setdefault s (base + (off : ℤ)) 0) s, p.2 = 0 := by
  induction l generalizing s with
  | nil => exact h
  | cons x t ih => exact ih _ (setdefault_preserves_zero _ _ h)

/-- Every entry either reset store carries is zero. -/
lemma resetStore_all_zero (rt : RegisterType) : ∀ p ∈ resetStore rt, p.2 = 0 := by
  unfold resetStore
  generalize catalogAll = defs
  have hbase : ∀ p ∈ ([] : RegStore), p.2 = 0 := by intro p hp; cases hp
  generalize hstart : ([] : RegStore) = s at hbase
  clear hstart
  induction defs generalizing s with
  | nil => exact hbase
  | cons d t ih =>
    simp only [List.foldl_cons]
    split
    · exact ih _ (rangeFold_preserves_zero _ _ _ hbase)
    · exact ih _ hbase

/-- Claim C8: `read_block` always returns exactly `count` words, every
address missing from the backing store contributes `0`, and on a freshly
reset store the whole result is zero (the model is total, mirroring that
`dict.get` never raises). -/
theorem c8_read_block_total (st : VirtualWallboxState) (rt : RegisterType)
    (start : ℤ) (count : ℕ) :
    (st.read_block rt start count).length = count ∧
    (∀ i : ℕ, i < count → alookup (storeOf st rt) (start + (i : ℤ)) = none →
      (st.read_block rt start count).getD i 1 = 0) ∧
    (∀ w ∈ (VirtualWallboxState.reset st).read_block rt start count, w = 0) := by
  refine ⟨?_, ?_, ?_⟩
  · unfold VirtualWallboxState.read_block
    rw [List.length_map, List.length_range]
  · intro i hi hnone
    unfold VirtualWallboxState.read_block
    rw [List.getD_eq_getElem?_getD, List.getElem?_map]
    simp [List.getElem?_range, hi, hnone]
  · intro w hw
    simp only [VirtualWallboxState.read_block, List.mem_map, List.mem_range] at hw
    obtain ⟨off, _, rfl⟩ := hw
    have hst : storeOf (VirtualWallboxState.reset st) rt = resetStore rt := by
      cases rt <;> simp [storeOf, VirtualWallboxState.reset]
    have hz : ∀ p ∈ storeOf (VirtualWallboxState.reset st) rt, p.2 = 0 := by
      rw [hst]
      exact resetStore_all_zero rt
    exact alookup_getD_zero _ hz _

/-- Witness for `c8_read_block_total`: a read over an empty backing store
has the requested length and yields zero at a missing address. -/
theorem c8_read_block_total_witness :
    ((VirtualWallboxState.mk 255 [] []).read_block .holding 4990 3).length = 3 ∧
    (1 < 3 ∧ alookup (storeOf (VirtualWallboxState.mk 255 [] []) .holding) (4990 + (1 : ℤ)) =
      none ∧ ((VirtualWallboxState.mk 255 [] []).read_block .holding 4990 3).getD 1 1 = 0) :=
  ⟨(c8_read_block_total (VirtualWallboxState.mk 255 [] []) .holding 4990 3).1,
   by decide, by decide,
   (c8_read_block_total (VirtualWallboxState.mk 255 [] []) .holding 4990 3).2.1 1
     (by decide) (by decide)⟩

/-- The `insertSorted` only repositions the inserted element. -/
lemma insertSorted_perm (le : α → α → Bool) (a : α) (l : List α) :
    (insertSorted le a l).Perm (a :: l) := by
  induction l with
  | nil => exact List.Perm.refl _
  | cons b t ih =>
    unfold insertSorted
    split
    · exact (ih.cons b).trans (List.Perm.swap a b t)
    · exact List.Perm.refl _

/-- The insertion-sort fold is a permutation of the accumulator plus the
remaining input. -/
lemma pySortAux_perm (le : α → α → Bool) (l : List α) :
    ∀ acc : List α, (l.foldl (fun acc x => insertSorted le x acc) acc).Perm (acc ++ l) := by
  induction l with
  | nil => intro acc; simp
  | cons x t ih =>
    intro acc
    simp only [List.foldl_cons]
    refine (ih (insertSorted le x acc)).trans ?_
    refine (((insertSorted_perm le x acc).append_right t).trans ?_)
    exact List.perm_middle.symm

/-- The `pySort` permutes its input. -/
lemma pySort_perm (le : α → α → Bool) (l : List α) : (pySort le l).Perm l := by
  simpa using pySortAux_perm le l []

/-- The requests the sweep emits carry exactly the open block plus the
remaining definitions, in order. -/
lemma sweepGo_flatten (rt : RegisterType) (rest regs : List RegisterDefinition) (s e : ℤ) :
    (sweepGo rt rest regs s e).flatMap (fun r => r.registers) = regs ++ rest := by
  induction rest generalizing regs s e with
  | nil => simp [sweepGo]
  | cons d t ih =>
    simp only [sweepGo]
    split
    · simp [ih]
    · simp [ih]

/-- Word-count invariant of the sweep: if the open block fits and every
upcoming definition fits on its own, every emitted request fits. -/
lemma sweepGo_count_le (rt : RegisterType) (rest : List RegisterDefinition) :
    ∀ (regs : List RegisterDefinition) (s e : ℤ),
      (∀ d ∈ rest, (d.count : ℤ) ≤ MAX_REGISTERS_PER_REQUEST) →
      e - s ≤ MAX_REGISTERS_PER_REQUEST →
      ∀ r ∈ sweepGo rt rest regs s e, r.count ≤ MAX_REGISTERS_PER_REQUEST := by
  induction rest with
  | nil =>
    intro regs s e _ hacc r hr
    simp only [sweepGo, List.mem_singleton] at hr
    simp [hr, hacc]
  | cons d t ih =>
    intro regs s e hrest hacc r hr
    simp only [sweepGo] at hr
    split at hr
    · rcases List.mem_cons.mp hr with hhead | htail
      · simp [hhead, hacc]
      · refine ih [d] d.address (d.address + (d.count : ℤ)) ?_ ?_ r htail
        · intro x hx; exact hrest x (List.mem_cons_of_mem _ hx)
        · have := hrest d (List.mem_cons_self d t)
          omega
    · rename_i hcond
      have hre : d.address + (d.count : ℤ) - s ≤ MAX_REGISTERS_PER_REQUEST := by
        push_neg at hcond
        exact le_of_not_lt (fun hlt => hcond.2.not_lt hlt) |>.trans_eq rfl
      refine ih (regs ++ [d]) s (max e (d.address + (d.count : ℤ))) ?_ ?_ r hr
      · intro x hx; exact hrest x (List.mem_cons_of_mem _ hx)
      · have hm : max e (d.address + (d.count : ℤ)) ≤ s + MAX_REGISTERS_PER_REQUEST :=
          max_le (by omega) (by omega)
        omega

/-- Category invariant of the sweep: blocks only ever contain definitions
of the category being swept. -/
lemma sweepGo_types (rt : RegisterType) (rest : List RegisterDefinition) :
    ∀ (regs : List RegisterDefinition) (s e : ℤ),
      (∀ d ∈ rest, d.register_type = rt) →
      (∀ d ∈ regs, d.register_type = rt) →
      ∀ r ∈ sweepGo rt rest regs s e,
        r.register_type = rt ∧ ∀ d ∈ r.registers, d.register_type = rt := by
  induction rest with
  | nil =>
    intro regs s e _ hacc r hr
    simp only [sweepGo, List.mem_singleton] at hr
    subst hr
    exact ⟨rfl, hacc⟩
  | cons d t ih =>
    intro regs s e hrest hacc r hr
    simp only [sweepGo] at hr
    split at hr
    · rcases List.mem_cons.mp hr with hhead | htail
      · subst hhead; exact ⟨rfl, hacc⟩
      · refine ih [d] d.address (d.address + (d.count : ℤ)) ?_ ?_ r htail
        · intro x hx; exact hrest x (List.mem_cons_of_mem _ hx)
        · intro x hx
          simp only [List.mem_singleton] at hx
          subst hx
          exact hrest x (List.mem_cons_self x t)
    · refine ih (regs ++ [d]) s (max e (d.address + (d.count : ℤ))) ?_ ?_ r hr
      · intro x hx; exact hrest x (List.mem_cons_of_mem _ hx)
      · intro x hx
        rcases List.mem_append.mp hx with hxr | hxd
        · exact hacc x hxr
        · simp only [List.mem_singleton] at hxd
          subst hxd
          exact hrest x (List.mem_cons_self x t)

/-- The per-category plan covers exactly the category's definitions. -/
lemma planForType_flatten (rt : RegisterType) (defs : List RegisterDefinition) :
    ((planForType rt defs).flatMap (fun r => r.registers)).Perm
      (defs.filter (fun d => d.register_type == rt)) := by
  unfold planForType
  have hp := pySort_perm (fun a b => decide (a.address ≤ b.address))
    (defs.filter (fun d => d.register_type == rt))
  cases h : pySort (fun a b => decide (a.address ≤ b.address))
      (defs.filter (fun d => d.register_type == rt)) with
  | nil =>
    rw [h] at hp
    rw [hp.symm.eq_nil]
    simp
  | cons d rest =>
    rw [h] at hp
    rw [sweepGo_flatten]
    exact hp

/-- Every request of a per-category plan stays in its category. -/
lemma planForType_types (rt : RegisterType) (defs : List RegisterDefinition) :
    ∀ r ∈ planForType rt defs,
      r.register_type = rt ∧ ∀ d ∈ r.registers, d.register_type = rt := by
  unfold planForType
  have hp := pySort_perm (fun a b => decide (a.address ≤ b.address))
    (defs.filter (fun d => d.register_type == rt))
  cases h : pySort (fun a b => decide (a.address ≤ b.address))
      (defs.filter (fun d => d.register_type == rt)) with
  | nil => intro r hr; cases hr
  | cons d rest =>
    rw [h] at hp
    have hmem : ∀ x ∈ d :: rest, x.register_type = rt := by
      intro x hx
      have hxf := hp.mem_iff.mp hx
      have := (List.mem_filter.mp hxf).2
      exact beq_iff_eq.mp this
    refine sweepGo_types rt rest [d] d.address (d.address + (d.count : ℤ)) ?_ ?_
    · intro x hx; exact hmem x (List.mem_cons_of_mem _ hx)
    · intro x hx
      simp only [List.mem_singleton] at hx
      subst hx
      exact hmem x (List.mem_cons_self x rest)

/-- Every request of a per-category plan fits the word-count ceiling,
provided every definition fits on its own. -/
lemma planForType_count (rt : RegisterType) (defs : List RegisterDefinition)
    (hcount : ∀ d ∈ defs, (d.count : ℤ) ≤ MAX_REGISTERS_PER_REQUEST) :
    ∀ r ∈ planForType rt defs, r.count ≤ MAX_REGISTERS_PER_REQUEST := by
  unfold planForType
  have hp := pySort_perm (fun a b => decide (a.address ≤ b.address))
    (defs.filter (fun d => d.register_type == rt))
  cases h : pySort (fun a b => decide (a.address ≤ b.address))
      (defs.filter (fun d => d.register_type == rt)) with
  | nil => intro r hr; cases hr
  | cons d rest =>
    rw [h] at hp
    have hmem : ∀ x ∈ d :: rest, (x.count : ℤ) ≤ MAX_REGISTERS_PER_REQUEST := by
      intro x hx
      have hxf := hp.mem_iff.mp hx
      exact hcount x (List.mem_filter.mp hxf).1
    refine sweepGo_count_le rt rest [d] d.address (d.address + (d.count : ℤ)) ?_ ?_
    · intro x hx; exact hmem x (List.mem_cons_of_mem _ hx)
    · have := hmem d (List.mem_cons_self d rest)
      omega

/-- Claim C3 (amended: every definition fits the 110-word ceiling on its
own, as all catalog definitions do): the produced plan covers every input
definition exactly once (as a permutation of the catalog), never mixes
the two register categories inside one request, and never exceeds
`MAX_REGISTERS_PER_REQUEST` words per request. -/
theorem c3_read_plan_partition (defs : List RegisterDefinition)
    (hcount : ∀ d ∈ defs, (d.count : ℤ) ≤ MAX_REGISTERS_PER_REQUEST) :
    ((_build_read_plan defs).flatMap (fun r => r.registers)).Perm defs ∧
    (∀ r ∈ _build_read_plan defs, ∀ d ∈ r.registers, d.register_type = r.register_type) ∧
    (∀ r ∈ _build_read_plan defs, r.count ≤ MAX_REGISTERS_PER_REQUEST) := by
  have hsortperm :
      (_build_read_plan defs).Perm
        (planForType .input defs ++ planForType .holding defs) := by
    unfold _build_read_plan
    exact pySort_perm _ _
  refine ⟨?_, ?_, ?_⟩
  · refine ((hsortperm.flatMap_right (fun r => r.registers)).trans ?_)
    rw [List.flatMap_append]
    refine ((planForType_flatten .input defs).append (planForType_flatten .holding defs)).trans ?_
    have hfc : defs.filter (fun d => d.register_type == RegisterType.holding) =
        defs.filter (fun d => !(d.register_type == RegisterType.input)) := by
      apply List.filter_congr
      intro d _
      cases hd : d.register_type <;> simp
    rw [hfc]
    exact List.filter_append_perm _ defs
  · intro r hr d hd
    rcases List.mem_append.mp (hsortperm.mem_iff.mp hr) with hri | hrh
    · have := planForType_types .input defs r hri
      rw [this.1]
      exact this.2 d hd
    · have := planForType_types .holding defs r hrh
      rw [this.1]
      exact this.2 d hd
  · intro r hr
    rcases List.mem_append.mp (hsortperm.mem_iff.mp hr) with hri | hrh
    · exact planForType_count .input defs hcount r hri
    · exact planForType_count .holding defs hcount r hrh

/-- Witness for `c3_read_plan_partition` on a two-register catalog. -/
theorem c3_read_plan_partition_witness :
    (∀ d ∈ [findRegister ("charge_point_state"), findRegister ("charging_state")],
      (d.count : ℤ) ≤ MAX_REGISTERS_PER_REQUEST) ∧
    (((_build_read_plan [findRegister ("charge_point_state"), findRegister ("charging_state")]).flatMap
        (fun r => r.registers)).Perm
      [findRegister ("charge_point_state"), findRegister ("charging_state")] ∧
    (∀ r ∈ _build_read_plan [findRegister ("charge_point_state"), findRegister ("charging_state")],
      ∀ d ∈ r.registers, d.register_type = r.register_type) ∧
    (∀ r ∈ _build_read_plan [findRegister ("charge_point_state"), findRegister ("charging_state")],
      r.count ≤ MAX_REGISTERS_PER_REQUEST)) :=
  ⟨by decide,
   c3_read_plan_partition [findRegister ("charge_point_state"), findRegister ("charging_state")]
     (by decide)⟩

/-- Claim C3 (counterexample to the unamended claim): a catalog holding a
single 111-word definition produces a request of 111 words, exceeding the
110-word maximum — `_build_read_plan` never splits one oversized
definition. -/
theorem c3_oversized_definition_counterexample :
    (_build_read_plan
        [{ key := "oversized", name := "Oversized", address := 0, count := 111,
           register_type := .holding, data_type := .string, entity := .sensor }]).map
      (fun r => r.count) = [111] ∧
    ¬((111 : ℤ) ≤ MAX_REGISTERS_PER_REQUEST) := by
  refine ⟨by decide, by decide⟩

/-- The `round` of an integer is that integer. -/
lemma pyRound_intCast (n : ℤ) : pyRound (n : ℚ) = n := by
  unfold pyRound
  rw [Int.floor_intCast, sub_self, if_pos (by norm_num)]

/-- The `round` of a non-negative number is non-negative. -/
lemma pyRound_nonneg {x : ℚ} (hx : 0 ≤ x) : 0 ≤ pyRound x := by
  unfold pyRound
  have h0 : (0 : ℤ) ≤ ⌊x⌋ := Int.floor_nonneg.mpr hx
  split_ifs <;> omega

/-- The `round` never overshoots an integer upper bound. -/
lemma pyRound_le {x : ℚ} {n : ℤ} (h : x ≤ (n : ℚ)) : pyRound x ≤ n := by
  unfold pyRound
  have hf : ⌊x⌋ ≤ n := by
    have := Int.floor_le_floor h
    rwa [Int.floor_intCast] at this
  have hlt : (1 : ℚ) / 2 ≤ x - ⌊x⌋ → ⌊x⌋ < n := by
    intro hr
    rcases lt_or_eq_of_le hf with hlt | heq
    · exact hlt
    · exfalso
      rw [heq] at hr
      have : x - (n : ℚ) ≤ 0 := by linarith
      linarith
  split_ifs with h1 h2 h3
  · exact hf
  · have := hlt (by linarith)
    omega
  · exact hf
  · have := hlt (by linarith)
    omega

/-- The `round` is within half a unit of its argument. -/
lemma abs_pyRound_sub (x : ℚ) : |(pyRound x : ℚ) - x| ≤ 1 / 2 := by
  unfold pyRound
  have h0 : 0 ≤ x - ⌊x⌋ := by
    have := Int.floor_le x
    linarith
  have h1 : x - ⌊x⌋ < 1 := by
    have := Int.lt_floor_add_one x
    linarith
  split_ifs with ha hb hc
  · rw [abs_le]
    constructor <;> linarith
  · rw [abs_le]
    push_cast
    constructor <;> linarith
  · have heq : x - (⌊x⌋ : ℚ) = 1 / 2 := le_antisymm (not_lt.mp hb) (not_lt.mp ha)
    rw [abs_le]
    constructor <;> linarith
  · have heq : x - (⌊x⌋ : ℚ) = 1 / 2 := le_antisymm (not_lt.mp hb) (not_lt.mp ha)
    rw [abs_le]
    push_cast
    constructor <;> linarith

/-- The `int(...)` of a natural number is itself. -/
lemma pyInt_natCast (n : ℕ) : pyInt (n : ℚ) = n := by
  unfold pyInt
  rw [if_neg (not_lt.mpr (by positivity))]
  exact_mod_cast Int.floor_natCast n

/-- Splitting a 32-bit value into two big-endian words and recombining
them is the identity. -/
lemma uint32_split_roundtrip (r : ℕ) (h : r < 4294967296) :
    (((r >>> 16) &&& 65535) <<< 16) + (r &&& 65535) = r := by
  have h2 : ∀ m : ℕ, m &&& 65535 = m % 65536 := by
    intro m
    have := Nat.and_pow_two_sub_one_eq_mod m 16
    norm_num at this
    exact this
  have h1 : r >>> 16 = r / 65536 := by
    rw [Nat.shiftRight_eq_div_pow]
  rw [h1, h2, h2, Nat.shiftLeft_eq]
  have hlt : r / 65536 < 65536 := by omega
  rw [Nat.mod_eq_of_lt hlt]
  have : (2 : ℕ) ^ 16 = 65536 := by norm_num
  rw [this]
  omega

/-- Decoding a raw word at scale 1 yields the raw value as an integer. -/
lemma decodeNumeric_scale_one (d : RegisterDefinition) (hs : d.scale = 1) (n : ℕ) :
    decodeNumeric d n = .intVal n := by
  unfold decodeNumeric
  rw [if_pos hs, hs, mul_one, pyInt_natCast]

/-- Decoding the rounded scaled raw value lands within one scale-step of
the original value. -/
lemma decodeNumeric_scaled (d : RegisterDefinition) (hs : ¬d.scale = 1) (h1 : 0 < d.scale)
    (q : ℚ) (n : ℕ) (hn : (n : ℚ) = (pyRound (q / d.scale) : ℚ)) :
    ∃ q', decodeNumeric d n = .ratVal q' ∧ |q' - q| ≤ d.scale := by
  refine ⟨(n : ℚ) * d.scale, by unfold decodeNumeric; rw [if_neg hs], ?_⟩
  rw [hn]
  have heq : (pyRound (q / d.scale) : ℚ) * d.scale - q =
      ((pyRound (q / d.scale) : ℚ) - q / d.scale) * d.scale := by
    rw [sub_mul, div_mul_cancel₀ _ (ne_of_gt h1)]
  rw [heq, abs_mul, abs_of_pos h1]
  have habs := abs_pyRound_sub (q / d.scale)
  have hmul : |(pyRound (q / d.scale) : ℚ) - q / d.scale| * d.scale ≤ (1 / 2) * d.scale :=
    mul_le_mul_of_nonneg_right habs h1.le
  linarith

/-- Chunking even-length byte data into big-endian words and flattening
back is the identity. -/
lemma chunkWords_flatMap (l : List ℕ) (hb : ∀ b ∈ l, b < 256) (hlen : l.length % 2 = 0) :
    (chunkWords l).flatMap wordBytes = l := by
  induction l using chunkWords.induct with
  | case1 => rfl
  | case2 b =>
    simp at hlen
  | case3 b₀ b₁ rest ih =>
    have hb₀ : b₀ < 256 := hb b₀ (by simp)
    have hb₁ : b₁ < 256 := hb b₁ (by simp)
    have hrest : ∀ b ∈ rest, b < 256 := fun b hbm => hb b (by simp [hbm])
    have hlen' : rest.length % 2 = 0 := by
      simp only [List.length_cons] at hlen
      omega
    simp only [chunkWords, List.flatMap_cons, ih hrest hlen', wordBytes]
    have hdiv : (b₀ * 256 + b₁) / 256 = b₀ := by omega
    have hmod : (b₀ * 256 + b₁) % 256 = b₁ := by omega
    rw [hdiv, hmod]
    rfl

/-- Trailing NUL padding is removed by `rstrip(b"\x00")`. -/
lemma rstripNul_append_zeros (bs : List ℕ) (k : ℕ) :
    rstripNul (bs ++ List.replicate k 0) = rstripNul bs := by
  unfold rstripNul
  rw [List.reverse_append, List.reverse_replicate]
  congr 1
  induction k with
  | zero => rfl
  | succ m ih =>
    simp only [List.replicate_succ, List.cons_append, List.dropWhile_cons]
    simp [ih]

/-- A padding-safe byte text survives NUL-stripping plus `strip()`. -/
lemma text_decode_of_safe (bs : List ℕ) (hsafe : textRoundtripSafe bs = true) :
    pyStrip (rstripNul bs) = bs := by
  cases bs with
  | nil => rfl
  | cons b t =>
    unfold textRoundtripSafe at hsafe
    simp only [Bool.and_eq_true, Bool.not_eq_true'] at hsafe
    obtain ⟨⟨hlast0, hlastWS⟩, hheadWS⟩ := hsafe
    rcases List.eq_nil_or_concat (b :: t) with habs | ⟨ys, y, hy⟩
    · cases habs
    · rw [List.concat_eq_append] at hy
      have hlasty : (b :: t).getLastD 0 = y := by
        rw [hy]
        exact List.getLastD_concat _ _ _
      rw [hlasty] at hlast0 hlastWS
      have hheadb : (b :: t).headD 0 = b := rfl
      rw [hheadb] at hheadWS
      have hstrip : rstripNul (b :: t) = b :: t := by
        unfold rstripNul
        rw [hy, List.reverse_append]
        simp only [List.reverse_cons, List.reverse_nil, List.nil_append, List.singleton_append,
          List.dropWhile_cons]
        rw [if_neg (by simp [hlast0])]
        simp
      rw [hstrip]
      unfold pyStrip
      rw [List.dropWhile_cons, if_neg (by simp [hheadWS])]
      conv_lhs => rw [hy]
      rw [List.reverse_append]
      simp only [List.reverse_cons, List.reverse_nil, List.nil_append, List.singleton_append,
        List.dropWhile_cons]
      rw [if_neg (by simp [hlastWS])]
      simp [← hy]

/-- The rounded raw value of a representable numeric is within the claimed
bit-width bound. -/
lemma pyRound_raw_bounds (s q : ℚ) (hscale : 0 < s) (hq0 : 0 ≤ q) (n : ℤ)
    (hbound : (if s = 1 then q else q / s) ≤ (n : ℚ)) :
    0 ≤ (if s ≠ 1 then pyRound (q / s) else pyRound q) ∧
      (if s ≠ 1 then pyRound (q / s) else pyRound q) ≤ n := by
  by_cases hs : s = 1
  · rw [if_neg (by simp [hs])]
    rw [if_pos hs] at hbound
    exact ⟨pyRound_nonneg hq0, pyRound_le hbound⟩
  · rw [if_pos hs]
    rw [if_neg hs] at hbound
    exact ⟨pyRound_nonneg (div_nonneg hq0 hscale.le), pyRound_le hbound⟩

/-- The `_encode_value` on a numeric `uint16` definition is the rounded,
range-checked raw word. -/
lemma encode_numeric_eq₁₆ (d : RegisterDefinition) (hdt : d.data_type = .uint16)
    (v : PyValue) (q : ℚ) (hv : numOf v = some q) :
    _encode_value d v =
      (if 0 ≤ (if d.scale ≠ 1 then pyRound (q / d.scale) else pyRound q) ∧
          (if d.scale ≠ 1 then pyRound (q / d.scale) else pyRound q) ≤ 65535
       then .ok [(if d.scale ≠ 1 then pyRound (q / d.scale) else pyRound q).toNat]
       else .error (.valueError (d.key))) := by
  cases v with
  | noneV => simp [numOf] at hv
  | strV bs => simp [numOf] at hv
  | intV m =>
    simp only [numOf, Option.some.injEq] at hv
    subst hv
    unfold _encode_value
    rw [hdt]
    rfl
  | ratV x =>
    simp only [numOf, Option.some.injEq] at hv
    subst hv
    unfold _encode_value
    rw [hdt]
    rfl

/-- The `_encode_value` on a numeric `uint32` definition is the rounded,
range-checked pair of big-endian raw words. -/
lemma encode_numeric_eq₃₂ (d : RegisterDefinition) (hdt : d.data_type = .uint32)
    (v : PyValue) (q : ℚ) (hv : numOf v = some q) :
    _encode_value d v =
      (if 0 ≤ (if d.scale ≠ 1 then pyRound (q / d.scale) else pyRound q) ∧
          (if d.scale ≠ 1 then pyRound (q / d.scale) else pyRound q) ≤ 4294967295
       then .ok [((if d.scale ≠ 1 then pyRound (q / d.scale) else pyRound q).toNat >>> 16) &&& 65535,
          (if d.scale ≠ 1 then pyRound (q / d.scale) else pyRound q).toNat &&& 65535]
       else .error (.valueError (d.key))) := by
  cases v with
  | noneV => simp [numOf] at hv
  | strV bs => simp [numOf] at hv
  | intV m =>
    simp only [numOf, Option.some.injEq] at hv
    subst hv
    unfold _encode_value
    rw [hdt]
    rfl
  | ratV x =>
    simp only [numOf, Option.some.injEq] at hv
    subst hv
    unfold _encode_value
    rw [hdt]
    rfl

/-- The `_decode_register` on a `uint16` definition reads the first word. -/
lemma decode_uint16_eq (d : RegisterDefinition) (hdt : d.data_type = .uint16)
    (data : List ℕ) :
    _decode_register d data = decodeNumeric d (data.getD 0 0) := by
  unfold _decode_register
  rw [hdt]

/-- The `_decode_register` on a `uint32` definition combines the first two
words big-endian. -/
lemma decode_uint32_eq (d : RegisterDefinition) (hdt : d.data_type = .uint32)
    (data : List ℕ) :
    _decode_register d data = decodeNumeric d ((data.getD 0 0) <<< 16 + data.getD 1 0) := by
  unfold _decode_register
  rw [hdt]

/-- The `_decode_register` on a text definition strips padding and whitespace
from the response bytes. -/
lemma decode_string_eq (d : RegisterDefinition) (hdt : d.data_type = .string)
    (data : List ℕ) :
    _decode_register d data = .strVal (pyStrip (rstripNul (data.flatMap wordBytes))) := by
  unfold _decode_register
  rw [hdt]

/-- Round trip for numeric `uint16` definitions. -/
lemma roundtrip_uint16 (d : RegisterDefinition) (hdt : d.data_type = .uint16) (v : PyValue)
    (q : ℚ) (hv : numOf v = some q) (hscale : 0 < d.scale) (hq0 : 0 ≤ q)
    (hbound : (if d.scale = 1 then q else q / d.scale) ≤ 65535)
    (hden : d.scale = 1 → (q.num : ℚ) = q) :
    ∃ ws, _encode_value d v = .ok ws ∧
      (if d.scale = 1 then _decode_register d ws = .intVal q.num
       else ∃ q', _decode_register d ws = .ratVal q' ∧ |q' - q| ≤ d.scale) := by
  obtain ⟨h0, hle⟩ := pyRound_raw_bounds d.scale q hscale hq0 65535 (by exact_mod_cast hbound)
  rw [encode_numeric_eq₁₆ d hdt v q hv, if_pos ⟨h0, hle⟩]
  refine ⟨_, rfl, ?_⟩
  by_cases hs : d.scale = 1
  · rw [if_pos hs]
    have hraw1 : (if d.scale ≠ 1 then pyRound (q / d.scale) else pyRound q) = q.num := by
      rw [if_neg (by simp [hs])]
      conv_lhs => rw [← hden hs]
      exact pyRound_intCast q.num
    rw [hraw1, decode_uint16_eq d hdt]
    have hg : ([q.num.toNat] : List ℕ).getD 0 0 = q.num.toNat := rfl
    rw [hg, decodeNumeric_scale_one d hs]
    have hnum0 : 0 ≤ q.num := Rat.num_nonneg.mpr hq0
    rw [Int.toNat_of_nonneg hnum0]
  · rw [if_neg hs]
    have hraw1 : (if d.scale ≠ 1 then pyRound (q / d.scale) else pyRound q) =
        pyRound (q / d.scale) := by rw [if_pos hs]
    rw [hraw1] at h0 ⊢
    rw [decode_uint16_eq d hdt]
    have hg : ([(pyRound (q / d.scale)).toNat] : List ℕ).getD 0 0 =
        (pyRound (q / d.scale)).toNat := rfl
    rw [hg]
    refine decodeNumeric_scaled d hs hscale q _ ?_
    exact_mod_cast Int.toNat_of_nonneg h0

/-- Round trip for numeric `uint32` definitions. -/
lemma roundtrip_uint32 (d : RegisterDefinition) (hdt : d.data_type = .uint32) (v : PyValue)
    (q : ℚ) (hv : numOf v = some q) (hscale : 0 < d.scale) (hq0 : 0 ≤ q)
    (hbound : (if d.scale = 1 then q else q / d.scale) ≤ 4294967295)
    (hden : d.scale = 1 → (q.num : ℚ) = q) :
    ∃ ws, _encode_value d v = .ok ws ∧
      (if d.scale = 1 then _decode_register d ws = .intVal q.num
       else ∃ q', _decode_register d ws = .ratVal q' ∧ |q' - q| ≤ d.scale) := by
  obtain ⟨h0, hle⟩ :=
    pyRound_raw_bounds d.scale q hscale hq0 4294967295 (by exact_mod_cast hbound)
  rw [encode_numeric_eq₃₂ d hdt v q hv, if_pos ⟨h0, hle⟩]
  refine ⟨_, rfl, ?_⟩
  have hsplit : ∀ raw : ℤ, 0 ≤ raw → raw ≤ 4294967295 →
      ((([(raw.toNat >>> 16) &&& 65535, raw.toNat &&& 65535] : List ℕ).getD 0 0) <<< 16) +
        ([(raw.toNat >>> 16) &&& 65535, raw.toNat &&& 65535] : List ℕ).getD 1 0 = raw.toNat := by
    intro raw hr0 hrle
    have hlt : raw.toNat < 4294967296 := by omega
    exact uint32_split_roundtrip raw.toNat hlt
  by_cases hs : d.scale = 1
  · rw [if_pos hs]
    have hraw1 : (if d.scale ≠ 1 then pyRound (q / d.scale) else pyRound q) = q.num := by
      rw [if_neg (by simp [hs])]
      conv_lhs => rw [← hden hs]
      exact pyRound_intCast q.num
    rw [hraw1] at h0 hle ⊢
    rw [decode_uint32_eq d hdt, hsplit q.num h0 hle, decodeNumeric_scale_one d hs]
    have hnum0 : 0 ≤ q.num := Rat.num_nonneg.mpr hq0
    rw [Int.toNat_of_nonneg hnum0]
  · rw [if_neg hs]
    have hraw1 : (if d.scale ≠ 1 then pyRound (q / d.scale) else pyRound q) =
        pyRound (q / d.scale) := by rw [if_pos hs]
    rw [hraw1] at h0 hle ⊢
    rw [decode_uint32_eq d hdt, hsplit (pyRound (q / d.scale)) h0 hle]
    refine decodeNumeric_scaled d hs hscale q _ ?_
    exact_mod_cast Int.toNat_of_nonneg h0

/-- The `_encode_value` on a text definition: capacity check, then NUL-pad
and chunk. -/
lemma encode_string_eq (d : RegisterDefinition) (hdt : d.data_type = .string)
    (bs : List ℕ) :
    _encode_value d (.strV bs) =
      (if bs.length > d.count * 2 then .error (.valueError (d.key))
       else .ok (chunkWords (bs ++ List.replicate (d.count * 2 - bs.length) 0))) := by
  unfold _encode_value
  rw [hdt]

/-- Claim C4 (amended: text values additionally carry no leading or
trailing whitespace and no trailing NUL byte): for every register
definition and every representable value, decoding the encoded words
returns the value — exactly (as an integer) at scale 1 and for text,
within one scale-step for scaled numerics. -/
theorem c4_decode_encode_roundtrip (d : RegisterDefinition) (v : PyValue)
    (h : representableAmended d v = true) : decodeEncodeOk d v := by
  unfold representableAmended at h
  rw [Bool.and_eq_true] at h
  obtain ⟨hrep, hsafe⟩ := h
  unfold decodeEncodeOk
  cases v with
  | noneV =>
    exfalso
    unfold representable at hrep
    cases hdt : d.data_type <;> rw [hdt] at hrep <;> simp [numOf] at hrep
  | strV bs =>
    cases hdt : d.data_type with
    | uint16 =>
      exfalso
      unfold representable at hrep
      rw [hdt] at hrep
      simp [numOf] at hrep
    | uint32 =>
      exfalso
      unfold representable at hrep
      rw [hdt] at hrep
      simp [numOf] at hrep
    | string =>
      unfold representable at hrep
      rw [hdt] at hrep
      simp only [Bool.and_eq_true, decide_eq_true_eq, List.all_eq_true,
        decide_eq_true_eq] at hrep
      obtain ⟨hlen, hascii⟩ := hrep
      have hsafe' : textRoundtripSafe bs = true := by simpa using hsafe
      refine ⟨chunkWords (bs ++ List.replicate (d.count * 2 - bs.length) 0), ?_, ?_⟩
      · rw [encode_string_eq d hdt, if_neg (by omega)]
      · show _decode_register d
            (chunkWords (bs ++ List.replicate (d.count * 2 - bs.length) 0)) = Value.strVal bs
        have hby : ∀ b ∈ bs ++ List.replicate (d.count * 2 - bs.length) 0, b < 256 := by
          intro b hb
          rcases List.mem_append.mp hb with hbs | hrep0
          · exact lt_trans (hascii b hbs) (by norm_num)
          · rw [List.eq_of_mem_replicate hrep0]
            norm_num
        have hbl : (bs ++ List.replicate (d.count * 2 - bs.length) 0).length % 2 = 0 := by
          rw [List.length_append, List.length_replicate]
          omega
        rw [decode_string_eq d hdt, chunkWords_flatMap _ hby hbl, rstripNul_append_zeros,
          text_decode_of_safe bs hsafe']
  | intV n =>
    cases hdt : d.data_type with
    | string =>
      exfalso
      unfold representable at hrep
      rw [hdt] at hrep
      simp at hrep
    | uint16 =>
      unfold representable at hrep
      rw [hdt] at hrep
      simp only [numOf, Bool.and_eq_true, decide_eq_true_eq] at hrep
      obtain ⟨⟨⟨hscale, hq0⟩, hbound⟩, _⟩ := hrep
      have hmr : maxRaw d = 65535 := by unfold maxRaw; rw [hdt]
      rw [hmr] at hbound
      exact roundtrip_uint16 d hdt (.intV n) (n : ℚ) rfl hscale hq0 hbound
        (fun _ => by simp)
    | uint32 =>
      unfold representable at hrep
      rw [hdt] at hrep
      simp only [numOf, Bool.and_eq_true, decide_eq_true_eq] at hrep
      obtain ⟨⟨⟨hscale, hq0⟩, hbound⟩, _⟩ := hrep
      have hmr : maxRaw d = 4294967295 := by unfold maxRaw; rw [hdt]
      rw [hmr] at hbound
      exact roundtrip_uint32 d hdt (.intV n) (n : ℚ) rfl hscale hq0 hbound
        (fun _ => by simp)
  | ratV x =>
    cases hdt : d.data_type with
    | string =>
      exfalso
      unfold representable at hrep
      rw [hdt] at hrep
      simp at hrep
    | uint16 =>
      unfold representable at hrep
      rw [hdt] at hrep
      simp only [numOf, Bool.and_eq_true, decide_eq_true_eq, Bool.or_eq_true,
        Bool.not_eq_true', beq_iff_eq, beq_eq_false_iff_ne] at hrep
      obtain ⟨⟨⟨hscale, hq0⟩, hbound⟩, hden⟩ := hrep
      have hmr : maxRaw d = 65535 := by unfold maxRaw; rw [hdt]
      rw [hmr] at hbound
      refine roundtrip_uint16 d hdt (.ratV x) x rfl hscale hq0 hbound ?_
      intro hs1
      rcases hden with hne | hden1
      · exact absurd hs1 hne
      · exact (Rat.den_eq_one_iff x).mp hden1
    | uint32 =>
      unfold representable at hrep
      rw [hdt] at hrep
      simp only [numOf, Bool.and_eq_true, decide_eq_true_eq, Bool.or_eq_true,
        Bool.not_eq_true', beq_iff_eq, beq_eq_false_iff_ne] at hrep
      obtain ⟨⟨⟨hscale, hq0⟩, hbound⟩, hden⟩ := hrep
      have hmr : maxRaw d = 4294967295 := by unfold maxRaw; rw [hdt]
      rw [hmr] at hbound
      refine roundtrip_uint32 d hdt (.ratV x) x rfl hscale hq0 hbound ?_
      intro hs1
      rcases hden with hne | hden1
      · exact absurd hs1 hne
      · exact (Rat.den_eq_one_iff x).mp hden1

/-- Witness for `c4_decode_encode_roundtrip` at a scale-1 16-bit register
and the integer value 5. -/
theorem c4_decode_encode_roundtrip_witness :
    representableAmended (findRegister ("charge_point_state")) (.intV 5) = true ∧
    decodeEncodeOk (findRegister ("charge_point_state")) (.intV 5) :=
  ⟨by decide,
   c4_decode_encode_roundtrip (findRegister ("charge_point_state")) (.intV 5) (by decide)⟩

/-- Claim C4 (counterexample to the unamended claim): the text value
`"a "` (bytes `[97, 32]`) is representable for the `session_user_id`
register — ASCII, 2 of at most 20 bytes — but decoding its encoding
yields `"a"`: the decoder's `str.strip()` removes the trailing blank, so
`decode ∘ encode` is not the identity on all representable text. -/
theorem c4_text_strip_counterexample :
    representable (findRegister ("session_user_id")) (.strV [97, 32]) = true ∧
    _encode_value (findRegister ("session_user_id")) (.strV [97, 32]) =
      .ok [24864, 0, 0, 0, 0, 0, 0, 0, 0, 0] ∧
    _decode_register (findRegister ("session_user_id")) [24864, 0, 0, 0, 0, 0, 0, 0, 0, 0] =
      .strVal [97] ∧
    Value.strVal [97] ≠ .strVal [97, 32] := by
  refine ⟨by decide, by rfl, by rfl, by decide⟩
